import Mathlib

set_option maxHeartbeats 1000000

/-
Verification of the Opalstack Jekyll installer (src/jekyll.py) against its
specification.  The Python source is shallowly embedded below: pure string
computations are translated directly; effectful calls (subprocess execution,
HTTP requests, filesystem and crontab mutation) are modelled by explicit
outcome parameters and state values, and Python exceptions / sys.exit are
modelled with Except.
-/

/-
Outcome of launching one external command via subprocess.check_output
(src/jekyll.py line 71):
  - success: the process ran and exited 0; `output` is its captured stdout.
  - exitFail: the process ran and exited with returncode `code` (non-zero in
    practice, which is exactly when subprocess raises CalledProcessError);
    `output` is the captured stdout attached to the exception as e.output.
  - launchFail: the launch itself raised (e.g. OSError / FileNotFoundError),
    which check_output does not wrap in CalledProcessError.
Captured bytes are modelled as String (the program always decodes them).
-/
inductive ExecOutcome
  | success (output : String)
  | exitFail (code : Nat) (output : String)
  | launchFail
deriving DecidableEq

/-
src/jekyll.py lines 67-75:
  def run_command(cmd, env, cwd=None):
      try:
          result = subprocess.check_output(shlex.split(cmd), cwd=cwd, env=env)
      except subprocess.CalledProcessError as e:
          result = e.output
      return result
CalledProcessError is caught and its output returned; any other exception
propagates (modelled as Except.error).
-/
def run_command : ExecOutcome → Except Unit String
  | ExecOutcome.success out => Except.ok out
  | ExecOutcome.exitFail _ out => Except.ok out
  | ExecOutcome.launchFail => Except.error ()

/-
Python str.strip(chars): removes leading and trailing characters that are
members of the given character SET (it does not remove a prefix/suffix
string).  Used by src/jekyll.py line 21.
-/
def pyStripChars (cs : List Char) (l : List Char) : List Char :=
  ((l.dropWhile (fun c => cs.contains c)).reverse.dropWhile (fun c => cs.contains c)).reverse

def pyStrip (s : String) (chars : String) : String :=
  String.mk (pyStripChars chars.data s.data)

/-
src/jekyll.py line 21:
  API_HOST = os.environ.get('API_URL', 'https://my.opalstack.com')
               .strip('https://').strip('http://')
modelled as a function of the optional API_URL environment variable.
-/
def apiHostOf (apiUrl : Option String) : String :=
  pyStrip (pyStrip (apiUrl.getD "https://my.opalstack.com") "https://") "http://"

/-
JSON rendering as performed by Python's json.dumps with default separators,
for the shapes this program serializes: strings, flat string-valued objects,
and a one-object array.  json.dumps escapes backslash and double quote in
strings (control-character escapes are not needed for the values this program
passes).  Braces are written with hex escapes.
-/
def jsonEscapeChar (c : Char) : String :=
  if c = '\\' then "\\\\" else if c = '"' then "\\\"" else String.singleton c

def jsonStr (s : String) : String :=
  "\"" ++ String.join (s.data.map jsonEscapeChar) ++ "\""

def jsonObj (fields : List (String × String)) : String :=
  "\x7b" ++ String.intercalate ", " (fields.map (fun p => jsonStr p.1 ++ ": " ++ jsonStr p.2)) ++ "\x7d"

/- One HTTPS request as issued through http.client.HTTPSConnection. -/
structure HTTPRequest where
  method : String
  host : String
  path : String
  headers : List (String × String)
  body : Option String
deriving DecidableEq

/-
src/jekyll.py lines 25-51, class OpalstackAPITool.  The constructed object
holds host, base_uri and the headers dict built at the end of __init__.
-/
structure OpalstackAPITool where
  host : String
  base_uri : String
  headers : List (String × String)
deriving DecidableEq

/- src/jekyll.py lines 48-51: the headers dict built from the auth token. -/
def tool_headers (authtoken : String) : List (String × String) :=
  [("Content-type", "application/json"), ("Authorization", "Token " ++ authtoken)]

/-
Python truthiness of the authtoken argument (argparse yields None when the
flag and the environment variable are both absent; an empty string is also
falsy).
-/
def pyTruthy : Option String → Bool
  | none => false
  | some s => !(s == "")

/-
src/jekyll.py lines 33-40: the login request issued when no token was
supplied: POST {base_uri}/login/ with JSON body {username, password} and a
Content-type header.
-/
def loginRequest (host base_uri user password : String) : HTTPRequest :=
  { method := "POST", host := host, path := base_uri ++ "/login/",
    headers := [("Content-type", "application/json")],
    body := some (jsonObj [("username", user), ("password", password)]) }

/-
src/jekyll.py lines 27-51, __init__: if no (truthy) auth token is provided,
POST to the login endpoint; `loginToken` is result.get('token') of the parsed
JSON response (none when the field is absent).  A falsy token field (absent
or empty) leads to sys.exit(1), modelled as Except.error 1.  The first
component collects the HTTP requests issued by the constructor.
-/
def tool_init (host base_uri : String) (authtoken : Option String) (user password : String)
    (loginToken : Option String) : List HTTPRequest × Except Nat OpalstackAPITool :=
  if pyTruthy authtoken then
    ([], Except.ok { host := host, base_uri := base_uri, headers := tool_headers (authtoken.getD "") })
  else
    match loginToken with
    | none => ([loginRequest host base_uri user password], Except.error 1)
    | some t =>
      if t = "" then ([loginRequest host base_uri user password], Except.error 1)
      else ([loginRequest host base_uri user password],
            Except.ok { host := host, base_uri := base_uri, headers := tool_headers t })

/- src/jekyll.py lines 53-58: GET an API endpoint with the stored headers. -/
def OpalstackAPITool.get (self : OpalstackAPITool) (endpoint : String) : HTTPRequest :=
  { method := "GET", host := self.host, path := self.base_uri ++ endpoint,
    headers := self.headers, body := none }

/- src/jekyll.py lines 60-65: POST a payload to an API endpoint with the stored headers. -/
def OpalstackAPITool.post (self : OpalstackAPITool) (endpoint : String) (payload : String) : HTTPRequest :=
  { method := "POST", host := self.host, path := self.base_uri ++ endpoint,
    headers := self.headers, body := some payload }

/-
State touched by add_cronjob: the user's installed crontab (none when no
crontab is installed) and the files of the home directory (name to contents).
-/
structure CronWorld where
  crontab : Option String
  files : List (String × String)
deriving DecidableEq

/-
src/jekyll.py lines 96-110:
  def add_cronjob(cronjob, env):
      homedir = os.path.expanduser('~')
      tmpname = f'{homedir}/.tmp{gen_password()}'
      with open(tmpname, 'w') as tmp:
          try:
              current = run_command('crontab -l', env).decode()
          except Exception as ex:
              current = ''
          tmp.write(current)
          tmp.write(f'{cronjob}\n')
      run_command(f'crontab {tmpname}', env)
      run_command(f'rm -f {tmpname}', env)
      logging.info(f'Added cron job: {cronjob}')
The outcomes of the three commands are parameters (`listOut`, `installOut`,
`rmOut`); the random temp file name is the parameter `tmpname`.  The external
semantics of `crontab <file>` exiting 0 is that the file's content becomes the
installed crontab; a non-zero exit leaves the installed crontab unchanged (and
is swallowed by run_command); a launch failure raises out of add_cronjob.
`rm -f` removes the temp file when it runs.  The returned String is the final
log message.
-/
def add_cronjob (cronjob tmpname : String) (listOut installOut rmOut : ExecOutcome)
    (w : CronWorld) : Except Unit (CronWorld × String) :=
  let current : String :=
    match run_command listOut with
    | Except.ok s => s
    | Except.error _ => ""
  let tmpContent := current ++ cronjob ++ "\n"
  let w1 : CronWorld := { w with files := (tmpname, tmpContent) :: w.files }
  match run_command installOut with
  | Except.error _ => Except.error ()
  | Except.ok _ =>
    let w2 : CronWorld :=
      match installOut with
      | ExecOutcome.success _ => { w1 with crontab := some tmpContent }
      | _ => w1
    match run_command rmOut with
    | Except.error _ => Except.error ()
    | Except.ok _ =>
      let w3 : CronWorld :=
        match rmOut with
        | ExecOutcome.success _ => { w2 with files := w2.files.filter (fun p => !(p.1 == tmpname)) }
        | _ => w2
      Except.ok (w3, "Added cron job: " ++ cronjob)

/-
src/jekyll.py lines 246-248:
  m = random.randint(0,9)
  croncmd = f"0{m},1{m},2{m},3{m},4{m},5{m} * * * * {appdir}/start_jekyll > /dev/null 2>&1"
The drawn digit m and the app directory are parameters; Python's str(m) on a
Nat is Nat.repr.
-/
def croncmd (m : Nat) (appdir : String) : String :=
  "0" ++ Nat.repr m ++ ",1" ++ Nat.repr m ++ ",2" ++ Nat.repr m ++ ",3" ++ Nat.repr m
    ++ ",4" ++ Nat.repr m ++ ",5" ++ Nat.repr m ++ " * * * * " ++ appdir
    ++ "/start_jekyll > /dev/null 2>&1"

/- The minutes field of the line built at src/jekyll.py line 248 (the part of
the f-string before the first space). -/
def cronMinutes (m : Nat) : String :=
  "0" ++ Nat.repr m ++ ",1" ++ Nat.repr m ++ ",2" ++ Nat.repr m ++ ",3" ++ Nat.repr m
    ++ ",4" ++ Nat.repr m ++ ",5" ++ Nat.repr m

/- Split a character list at commas (used to read back a cron minutes field). -/
def splitComma : List Char → List (List Char)
  | [] => [[]]
  | c :: rest =>
    if c = ',' then [] :: splitComma rest
    else
      match splitComma rest with
      | [] => [[c]]
      | g :: gs => (c :: g) :: gs

def charDigit? (c : Char) : Option Nat :=
  if '0' ≤ c ∧ c ≤ '9' then some (c.toNat - 48) else none

/- Read a decimal numeral (cron accepts leading zeros: "03" denotes minute 3). -/
def decToNat? (l : List Char) : Option Nat :=
  match l with
  | [] => none
  | _ =>
    l.foldl (fun acc c =>
      match acc, charDigit? c with
      | some n, some d => some (10 * n + d)
      | _, _ => none) (some 0)

/- A filesystem entry: a directory, or a file with contents and mode bits. -/
inductive Entry
  | dir
  | file (contents : String) (mode : Nat)
deriving DecidableEq

/- The filesystem as a finite map from path to entry (first match wins). -/
abbrev FS := List (String × Entry)

def lookupFS : FS → String → Option Entry
  | [], _ => none
  | (q, e) :: rest, p => if q = p then some e else lookupFS rest p

def setFS (fs : FS) (p : String) (e : Entry) : FS :=
  (p, e) :: fs.filter (fun q => !(q.1 == p))

/- os.path.isdir -/
def isdir (fs : FS) (p : String) : Bool :=
  match lookupFS fs p with
  | some Entry.dir => true
  | _ => false

/- os.path.exists -/
def path_exists (fs : FS) (p : String) : Bool :=
  (lookupFS fs p).isSome

/- os.chmod on a file path: replace its mode bits.  (The program only chmods
paths it just wrote; directories are never chmodded.) -/
def chmodFS (fs : FS) (p : String) (perms : Nat) : FS :=
  match lookupFS fs p with
  | some (Entry.file c _) => setFS fs p (Entry.file c perms)
  | _ => fs

def modeAt (fs : FS) (p : String) : Option Nat :=
  match lookupFS fs p with
  | some (Entry.file _ mo) => some mo
  | _ => none

/-
src/jekyll.py lines 77-82:
  def create_file(path, contents, writemode='w', perms=0o600):
      with open(path, writemode) as f:
          f.write(contents)
      os.chmod(path, perms)
open() on an existing directory raises; on an existing file 'w'/'wb' truncate
(keeping the inode's mode) and 'a' appends; on a fresh path it creates the
file with mode 0o666 masked by the process umask.  os.chmod then sets the
requested permission bits unconditionally.
-/
def create_file (fs : FS) (umask : Nat) (path contents : String)
    (writemode : String := "w") (perms : Nat := 0o600) : Except Unit FS :=
  match lookupFS fs path with
  | some Entry.dir => Except.error ()
  | some (Entry.file old oldMode) =>
    let newContents := if writemode = "a" then old ++ contents else contents
    Except.ok (chmodFS (setFS fs path (Entry.file newContents oldMode)) path perms)
  | none =>
    Except.ok (chmodFS (setFS fs path (Entry.file contents (0o666 &&& (0o777 ^^^ (umask &&& 0o777))))) path perms)

/- os.makedirs without exist_ok: raises if the path already exists. -/
def makedirsFS (fs : FS) (p : String) : Except Unit FS :=
  if path_exists fs p then Except.error () else Except.ok (setFS fs p Entry.dir)

/-
src/jekyll.py lines 174-179: run "jekyll new demo-site" only when the
demo-site directory does not already exist.  The external effect of the
jekyll command on the filesystem is the parameter `jekyllNew`; the second
component lists the commands the step invoked.
-/
def scaffold_step (jekyllNew : FS → FS) (fs : FS) (appdir : String) : FS × List String :=
  if isdir fs (appdir ++ "/demo-site") then (fs, [])
  else (jekyllNew fs, ["jekyll new demo-site"])

/-
src/jekyll.py lines 185-205: ensure the _posts directory exists, then write
the sample post only when no file for today's date is already present.  The
Bool records whether create_file ran.
-/
def sample_post_step (fs : FS) (umask : Nat) (site_dir today contents : String) :
    Except Unit (FS × Bool) :=
  match (if isdir fs (site_dir ++ "/_posts") then Except.ok fs
         else makedirsFS fs (site_dir ++ "/_posts")) with
  | Except.error _ => Except.error ()
  | Except.ok fs1 =>
    if path_exists fs1 (site_dir ++ "/_posts" ++ "/" ++ today ++ "-welcome-to-jekyll.md")
    then Except.ok (fs1, false)
    else
      match create_file fs1 umask (site_dir ++ "/_posts" ++ "/" ++ today ++ "-welcome-to-jekyll.md")
              contents "w" 0o644 with
      | Except.error _ => Except.error ()
      | Except.ok fs2 => Except.ok (fs2, true)

/-
One observable effect of the orchestrator (src/jekyll.py main, lines 112-288),
in program order.  API requests are tagged with their endpoint (and POST
payload); subprocess invocations with their command line; file writes with
the path and the permission argument passed to create_file.
-/
inductive Step
  | apiGet (endpoint : String)
  | apiPost (endpoint : String) (payload : String)
  | runCmd (cmd : String)
  | makeDirs (path : String)
  | chdirTo (path : String)
  | createFileAt (path : String) (perms : Nat)
  | addCron (line : String)
deriving DecidableEq

/- src/jekyll.py line 139: appdir = f'/home/{osuser}/apps/{appname}' -/
def appdir_of (osuser appname : String) : String :=
  "/home/" ++ osuser ++ "/apps/" ++ appname

/- src/jekyll.py line 174 -/
def site_dir_of (osuser appname : String) : String :=
  appdir_of osuser appname ++ "/demo-site"

/- src/jekyll.py line 185 -/
def posts_dir_of (osuser appname : String) : String :=
  site_dir_of osuser appname ++ "/_posts"

/- src/jekyll.py lines 188-190 -/
def post_path_of (osuser appname today : String) : String :=
  posts_dir_of osuser appname ++ "/" ++ today ++ "-welcome-to-jekyll.md"

/-
src/jekyll.py lines 286-287: the installed notification, with payload
json.dumps([{'id': args.app_uuid}]).
-/
def installedStep (uuid : String) : Step :=
  Step.apiPost "/app/installed/" ("[" ++ jsonObj [("id", uuid)] ++ "]")

/-
The orchestrator's effects before the installed notification, in source order
(src/jekyll.py lines 135-281).  The existence checks of lines 140, 175, 186
and 191 are the four Bool parameters; `m` is the digit drawn at line 246.
-/
def mainStepsBefore (uuid osuser appname today : String) (m : Nat)
    (appdirExists siteExists postsDirExists postExists : Bool) : List Step :=
  [Step.apiGet ("/app/read/" ++ uuid)]
  ++ (if appdirExists then [] else [Step.makeDirs (appdir_of osuser appname)])
  ++ [Step.makeDirs (appdir_of osuser appname ++ "/tmp"),
      Step.runCmd "gem install jekyll bundler --user-install",
      Step.runCmd "ruby -r rubygems -e 'puts Gem.user_dir'",
      Step.runCmd "jekyll -v"]
  ++ (if siteExists then [] else [Step.runCmd "jekyll new demo-site"])
  ++ [Step.chdirTo (site_dir_of osuser appname)]
  ++ (if postsDirExists then [] else [Step.makeDirs (posts_dir_of osuser appname)])
  ++ (if postExists then [] else [Step.createFileAt (post_path_of osuser appname today) 0o644])
  ++ [Step.runCmd "bundle exec jekyll build",
      Step.createFileAt (appdir_of osuser appname ++ "/start_jekyll") 0o700,
      Step.createFileAt (appdir_of osuser appname ++ "/stop_jekyll") 0o700,
      Step.addCron (croncmd m (appdir_of osuser appname)),
      Step.createFileAt (appdir_of osuser appname ++ "/README") 0o644]

/- The full effect sequence of main: everything above, then the installed
notification (src/jekyll.py lines 286-288). -/
def mainSteps (uuid osuser appname today : String) (m : Nat)
    (appdirExists siteExists postsDirExists postExists : Bool) : List Step :=
  mainStepsBefore uuid osuser appname today m appdirExists siteExists postsDirExists postExists
    ++ [installedStep uuid]

/-
Execution of a step list under a fault oracle `ok`: steps run in order; the
first step whose oracle is false raises, terminating the run (it was still
attempted).  Steps after a fault are never attempted — main has no handler.
-/
def attempted : List Step → (Step → Bool) → List Step
  | [], _ => []
  | s :: rest, ok => if ok s then s :: attempted rest ok else [s]

/- The file writes of a step trace, with their requested permission bits. -/
def stepFilePerm : Step → Option (String × Nat)
  | Step.createFileAt p perms => some (p, perms)
  | _ => none

/-- Claim C1: for every command that launches but exits with a non-zero status,
`run_command` returns that command's captured (error) output as its result and
does not raise; for a command exiting zero it returns the command's normal
output. -/
theorem run_command_swallows (out : String) (code : Nat) (hcode : code ≠ 0) :
    run_command (ExecOutcome.exitFail code out) = Except.ok out
    ∧ run_command (ExecOutcome.success out) = Except.ok out :=
  ⟨rfl, rfl⟩

/-- Witness for C1 at a concrete failing command outcome. -/
theorem run_command_swallows_witness :
    run_command (ExecOutcome.exitFail 2 "err") = Except.ok "err"
    ∧ run_command (ExecOutcome.success "err") = Except.ok "err" :=
  run_command_swallows "err" 2 (by decide)

/-- Claim C8 (evaluation at the failing input): the code's host computation is
not a protocol-prefix strip.  For API_URL = "https://torn.example.com" the
configured host is "orn.example.com" — the leading 't' of the host is eaten,
because str.strip removes characters of the set, not the prefix string —
contradicting the claim that the host equals "torn.example.com" exactly.  The
default value happens to survive unharmed. -/
theorem api_host_strip_eats_host_chars :
    apiHostOf (some "https://torn.example.com") = "orn.example.com"
    ∧ apiHostOf (some "https://torn.example.com") ≠ "torn.example.com"
    ∧ apiHostOf none = "my.opalstack.com" := by
  refine ⟨rfl, ?_, rfl⟩
  decide

/-- Claim C2: with no auth token supplied, the constructor performs exactly one
POST to the login endpoint with JSON body of username and password; if the
JSON response lacks a non-empty token field the process exits with status 1;
otherwise the extracted token is used (via the stored headers) for every
subsequent GET and POST. -/
theorem tool_init_login (host base_uri user password : String) (authtoken : Option String)
    (loginToken : Option String) (hno : pyTruthy authtoken = false) :
    (tool_init host base_uri authtoken user password loginToken).1
        = [loginRequest host base_uri user password]
    ∧ ((loginToken = none ∨ loginToken = some "") →
        (tool_init host base_uri authtoken user password loginToken).2 = Except.error 1)
    ∧ (∀ t, loginToken = some t → t ≠ "" →
        (tool_init host base_uri authtoken user password loginToken).2
            = Except.ok { host := host, base_uri := base_uri, headers := tool_headers t }
        ∧ (∀ ep, (OpalstackAPITool.get { host := host, base_uri := base_uri, headers := tool_headers t } ep).headers
            = tool_headers t)
        ∧ (∀ ep payload, (OpalstackAPITool.post { host := host, base_uri := base_uri, headers := tool_headers t } ep payload).headers
            = tool_headers t)) := by
  refine ⟨?_, ?_, ?_⟩
  · rcases loginToken with _ | t
    · simp [tool_init, hno]
    · by_cases ht : t = "" <;> simp [tool_init, hno, ht]
  · rintro (rfl | rfl) <;> simp [tool_init, hno]
  · rintro t rfl ht
    exact ⟨by simp [tool_init, hno, ht], fun ep => rfl, fun ep payload => rfl⟩

/-- Witness for C2: with no token and a login response carrying no token field,
exactly one login POST is issued and the constructor exits with status 1. -/
theorem tool_init_login_witness :
    (tool_init "my.opalstack.com" "/api/v1" none "user1" "pw1" none).1
        = [loginRequest "my.opalstack.com" "/api/v1" "user1" "pw1"]
    ∧ (tool_init "my.opalstack.com" "/api/v1" none "user1" "pw1" none).2 = Except.error 1 := by
  have h := tool_init_login "my.opalstack.com" "/api/v1" "user1" "pw1" none none rfl
  exact ⟨h.1, h.2.1 (Or.inl rfl)⟩

/-- Claim C3: with a (non-empty) auth token supplied, the login endpoint is
never contacted (no request is issued by the constructor), username and
password have no effect on any behavior, and every subsequent GET and POST
carries exactly the Authorization and Content-type headers built from the
supplied token. -/
theorem tool_token_supplied (host base_uri t user password user2 pw2 : String)
    (loginToken loginToken2 : Option String) (ht : t ≠ "") :
    tool_init host base_uri (some t) user password loginToken
        = ([], Except.ok { host := host, base_uri := base_uri, headers := tool_headers t })
    ∧ tool_init host base_uri (some t) user password loginToken
        = tool_init host base_uri (some t) user2 pw2 loginToken2
    ∧ (∀ ep, (OpalstackAPITool.get { host := host, base_uri := base_uri, headers := tool_headers t } ep).headers
        = [("Content-type", "application/json"), ("Authorization", "Token " ++ t)])
    ∧ (∀ ep payload, (OpalstackAPITool.post { host := host, base_uri := base_uri, headers := tool_headers t } ep payload).headers
        = [("Content-type", "application/json"), ("Authorization", "Token " ++ t)]) := by
  have h1 : pyTruthy (some t) = true := by simp [pyTruthy, ht]
  exact ⟨by simp [tool_init, h1], by simp [tool_init, h1], fun ep => rfl, fun ep payload => rfl⟩

/-- Witness for C3 at a concrete token, with differing credential values. -/
theorem tool_token_supplied_witness :
    tool_init "my.opalstack.com" "/api/v1" (some "TOK") "u" "p" none
        = ([], Except.ok { host := "my.opalstack.com", base_uri := "/api/v1", headers := tool_headers "TOK" })
    ∧ tool_init "my.opalstack.com" "/api/v1" (some "TOK") "u" "p" none
        = tool_init "my.opalstack.com" "/api/v1" (some "TOK") "other" "creds" (some "ignored") := by
  have h := tool_token_supplied "my.opalstack.com" "/api/v1" "TOK" "u" "p" "other" "creds" none (some "ignored") (by decide)
  exact ⟨h.1, h.2.1⟩

/- Helper: filtering away a key that does not occur leaves the list unchanged. -/
theorem filter_keys_of_not_mem (tmpname : String) (l : List (String × String))
    (h : tmpname ∉ l.map Prod.fst) :
    l.filter (fun p => !(p.1 == tmpname)) = l := by
  apply List.filter_eq_self.mpr
  intro a ha
  have hne : a.1 ≠ tmpname := fun he => h (List.mem_map.mpr ⟨a, ha, he⟩)
  simp [hne]

/-- Claim C4 (amended): for every initial crontab content C and cron line L, if
listing the current crontab succeeds with output C, then after add_cronjob the
installed crontab equals C followed by L and a trailing newline — existing
content and order preserved, no deduplication (a second call with the same L
appends a duplicate line) — and the temporary file is removed afterward.  A
crontab-list invocation that raises (e.g. fails to launch) is treated as empty
initial content, while one that runs but exits non-zero contributes its
captured standard output (empty in the usual no-crontab case) as the initial
content. -/
theorem add_cronjob_round_trip (C L tmpname : String) (w : CronWorld)
    (hfresh : tmpname ∉ w.files.map Prod.fst) :
    add_cronjob L tmpname (ExecOutcome.success C) (ExecOutcome.success "") (ExecOutcome.success "") w
        = Except.ok ({ crontab := some (C ++ L ++ "\n"), files := w.files }, "Added cron job: " ++ L)
    ∧ add_cronjob L tmpname (ExecOutcome.success (C ++ L ++ "\n")) (ExecOutcome.success "") (ExecOutcome.success "") w
        = Except.ok ({ crontab := some ((C ++ L ++ "\n") ++ L ++ "\n"), files := w.files }, "Added cron job: " ++ L)
    ∧ add_cronjob L tmpname ExecOutcome.launchFail (ExecOutcome.success "") (ExecOutcome.success "") w
        = Except.ok ({ crontab := some ("" ++ L ++ "\n"), files := w.files }, "Added cron job: " ++ L)
    ∧ (∀ code out, add_cronjob L tmpname (ExecOutcome.exitFail code out) (ExecOutcome.success "") (ExecOutcome.success "") w
        = Except.ok ({ crontab := some (out ++ L ++ "\n"), files := w.files }, "Added cron job: " ++ L)) := by
  have hf := filter_keys_of_not_mem tmpname w.files hfresh
  refine ⟨?_, ?_, ?_, fun code out => ?_⟩ <;>
    simp [add_cronjob, run_command, List.filter_cons, hf]

/-- Witness for C4 at concrete inputs. -/
theorem add_cronjob_round_trip_witness :
    add_cronjob "newjob" "t" (ExecOutcome.success "old\n") (ExecOutcome.success "") (ExecOutcome.success "")
        { crontab := some "old\n", files := [("keep", "k")] }
      = Except.ok ({ crontab := some ("old\n" ++ "newjob" ++ "\n"), files := [("keep", "k")] },
                   "Added cron job: " ++ "newjob") :=
  (add_cronjob_round_trip "old\n" "newjob" "t" { crontab := some "old\n", files := [("keep", "k")] }
    (by decide)).1

/-- Counterexample for C4 as stated: a crontab-list command that FAILS (exits
non-zero) with captured stdout "X" is not treated as empty initial content —
the installed crontab becomes "XL\n" rather than "L\n". -/
theorem add_cronjob_list_failure_not_empty :
    add_cronjob "L" "t" (ExecOutcome.exitFail 1 "X") (ExecOutcome.success "") (ExecOutcome.success "")
        { crontab := none, files := [] }
      = Except.ok ({ crontab := some "XL\n", files := [] }, "Added cron job: L")
    ∧ add_cronjob "L" "t" (ExecOutcome.exitFail 1 "X") (ExecOutcome.success "") (ExecOutcome.success "")
        { crontab := none, files := [] }
      ≠ Except.ok ({ crontab := some ("" ++ "L" ++ "\n"), files := [] }, "Added cron job: L") := by
  constructor
  · rfl
  · intro h
    rw [show add_cronjob "L" "t" (ExecOutcome.exitFail 1 "X") (ExecOutcome.success "") (ExecOutcome.success "")
          { crontab := none, files := [] }
        = Except.ok ({ crontab := some "XL\n", files := [] }, "Added cron job: L") from rfl] at h
    simp at h

/-- Claim C10: add_cronjob returns normally even when the crontab-installation
command exits non-zero — the failure is swallowed by run_command, the
temporary file is still deleted, the installed crontab is left unchanged, and
the same "Added cron job" result is produced — so at its interface a failed
crontab installation is indistinguishable from a successful one. -/
theorem add_cronjob_swallows_install_failure (C L tmpname out : String) (code : Nat) (w : CronWorld)
    (hcode : code ≠ 0) (hfresh : tmpname ∉ w.files.map Prod.fst) :
    add_cronjob L tmpname (ExecOutcome.success C) (ExecOutcome.exitFail code out) (ExecOutcome.success "") w
        = Except.ok ({ crontab := w.crontab, files := w.files }, "Added cron job: " ++ L) := by
  have hf := filter_keys_of_not_mem tmpname w.files hfresh
  simp [add_cronjob, run_command, List.filter_cons, hf]

/-- Witness for C10 at concrete inputs. -/
theorem add_cronjob_swallows_install_failure_witness :
    add_cronjob "newjob" "t" (ExecOutcome.success "old\n") (ExecOutcome.exitFail 2 "boom") (ExecOutcome.success "")
        { crontab := some "old\n", files := [] }
      = Except.ok ({ crontab := some "old\n", files := [] }, "Added cron job: " ++ "newjob") :=
  add_cronjob_swallows_install_failure "old\n" "newjob" "t" "boom" 2
    { crontab := some "old\n", files := [] } (by decide) (by decide)

/-- Claim C5: for every drawn digit m in 0..9, the cron line computed by the
orchestrator consists of a minutes field followed by " * * * * " and the start
script path with output discarded, and that minutes field reads back as
exactly the six minutes m, m+10, m+20, m+30, m+40, m+50 of every hour. -/
theorem croncmd_schedule (m : Nat) (hm : m ≤ 9) (appdir : String) :
    croncmd m appdir
        = cronMinutes m ++ " * * * * " ++ appdir ++ "/start_jekyll > /dev/null 2>&1"
    ∧ (splitComma (cronMinutes m).data).map decToNat?
        = [some m, some (m + 10), some (m + 20), some (m + 30), some (m + 40), some (m + 50)] := by
  constructor
  · simp [croncmd, cronMinutes, String.append_assoc]
  · interval_cases m <;> decide

/-- Witness for C5 at m = 3 and a concrete app directory. -/
theorem croncmd_schedule_witness :
    croncmd 3 "/home/u/apps/a"
        = cronMinutes 3 ++ " * * * * " ++ "/home/u/apps/a" ++ "/start_jekyll > /dev/null 2>&1"
    ∧ (splitComma (cronMinutes 3).data).map decToNat?
        = [some 3, some (3 + 10), some (3 + 20), some (3 + 30), some (3 + 40), some (3 + 50)] :=
  croncmd_schedule 3 (by decide) "/home/u/apps/a"

/- Helper: a freshly set entry is found by lookup. -/
theorem lookupFS_setFS (fs : FS) (p : String) (e : Entry) :
    lookupFS (setFS fs p e) p = some e := by
  simp [setFS, lookupFS]

/- Helper: writing a file entry and then chmodding the same path yields
exactly the chmod mode. -/
theorem modeAt_chmodFS_setFS (fs : FS) (p c : String) (mo x : Nat) :
    modeAt (chmodFS (setFS fs p (Entry.file c mo)) p x) p = some x := by
  simp [chmodFS, lookupFS_setFS, modeAt]

/- Helper: the mode produced by any successful create_file is the requested
permission value. -/
theorem create_file_mode_aux (fs : FS) (umask : Nat) (path contents writemode : String)
    (perms : Nat) (fs2 : FS) (h : create_file fs umask path contents writemode perms = Except.ok fs2) :
    modeAt fs2 path = some perms := by
  cases hl : lookupFS fs path with
  | none =>
    simp [create_file, hl] at h
    exact h ▸ modeAt_chmodFS_setFS fs path contents _ perms
  | some e =>
    cases e with
    | dir => simp [create_file, hl] at h
    | file old oldMode =>
      simp [create_file, hl] at h
      exact h ▸ modeAt_chmodFS_setFS fs path _ oldMode perms

/-- Claim C6: every file materialized by create_file ends with mode bits
exactly equal to the requested permission value, regardless of the prior state
of the path and of the umask; a call not overriding the default requests mode
0o600; and the orchestrator's file writes request 0o700 for the start and stop
scripts and 0o644 for the sample post and the README. -/
theorem create_file_exact_perms :
    (∀ (fs : FS) (umask : Nat) (path contents writemode : String) (perms : Nat) (fs2 : FS),
        create_file fs umask path contents writemode perms = Except.ok fs2 →
        modeAt fs2 path = some perms)
    ∧ (∀ (fs : FS) (umask : Nat) (path contents : String) (fs2 : FS),
        create_file fs umask path contents = Except.ok fs2 → modeAt fs2 path = some 0o600)
    ∧ (∀ (uuid osuser appname today : String) (m : Nat) (aE sE pdE pE : Bool),
        (mainSteps uuid osuser appname today m aE sE pdE pE).filterMap stepFilePerm
          = (if pE then [] else [(post_path_of osuser appname today, 0o644)])
            ++ [(appdir_of osuser appname ++ "/start_jekyll", 0o700),
                (appdir_of osuser appname ++ "/stop_jekyll", 0o700),
                (appdir_of osuser appname ++ "/README", 0o644)]) := by
  refine ⟨create_file_mode_aux, ?_, ?_⟩
  · intro fs umask path contents fs2 h
    exact create_file_mode_aux fs umask path contents "w" 0o600 fs2 h
  · intro uuid osuser appname today m aE sE pdE pE
    cases aE <;> cases sE <;> cases pdE <;> cases pE <;>
      simp [mainSteps, mainStepsBefore, installedStep, stepFilePerm, List.filterMap]

/-- Witness for C6: a concrete create_file run on an existing file ends with
exactly the requested mode bits. -/
theorem create_file_exact_perms_witness :
    modeAt [("f", Entry.file "new" 0o640)] "f" = some 0o640 :=
  create_file_exact_perms.1 [("f", Entry.file "old" 0o644)] 0 "f" "new" "w" 0o640
    [("f", Entry.file "new" 0o640)] rfl

/-- Claim C7: the scaffold step is idempotent by existence check — if the
demo-site directory already exists the jekyll-new command is not invoked and
the filesystem is left unaltered by that step; likewise the sample post step
writes nothing when a post file for today's date already exists. -/
theorem scaffold_idempotent :
    (∀ (jekyllNew : FS → FS) (fs : FS) (appdir : String),
        isdir fs (appdir ++ "/demo-site") = true →
        scaffold_step jekyllNew fs appdir = (fs, []))
    ∧ (∀ (fs : FS) (umask : Nat) (site_dir today contents : String),
        isdir fs (site_dir ++ "/_posts") = true →
        path_exists fs (site_dir ++ "/_posts" ++ "/" ++ today ++ "-welcome-to-jekyll.md") = true →
        sample_post_step fs umask site_dir today contents = Except.ok (fs, false)) := by
  constructor
  · intro jekyllNew fs appdir h
    simp [scaffold_step, h]
  · intro fs umask site_dir today contents h1 h2
    simp [sample_post_step, h1, h2]

/-- Witness for C7 on a concrete filesystem holding the site directory, the
posts directory and today's post. -/
theorem scaffold_idempotent_witness :
    scaffold_step id [("a/demo-site", Entry.dir), ("s/_posts", Entry.dir),
        ("s/_posts/2026-01-02-welcome-to-jekyll.md", Entry.file "" 0o644)] "a"
      = ([("a/demo-site", Entry.dir), ("s/_posts", Entry.dir),
          ("s/_posts/2026-01-02-welcome-to-jekyll.md", Entry.file "" 0o644)], [])
    ∧ sample_post_step [("a/demo-site", Entry.dir), ("s/_posts", Entry.dir),
        ("s/_posts/2026-01-02-welcome-to-jekyll.md", Entry.file "" 0o644)] 0 "s" "2026-01-02" "body"
      = Except.ok ([("a/demo-site", Entry.dir), ("s/_posts", Entry.dir),
          ("s/_posts/2026-01-02-welcome-to-jekyll.md", Entry.file "" 0o644)], false) :=
  ⟨scaffold_idempotent.1 id _ "a" (by decide),
   scaffold_idempotent.2 _ 0 "s" "2026-01-02" "body" (by decide) (by decide)⟩

/- Helper: the installed notification occurs nowhere among the earlier steps
(no other step is an apiPost). -/
theorem installed_not_in_before (uuid osuser appname today : String) (m : Nat)
    (aE sE pdE pE : Bool) :
    installedStep uuid ∉ mainStepsBefore uuid osuser appname today m aE sE pdE pE := by
  cases aE <;> cases sE <;> cases pdE <;> cases pE <;>
    simp [mainStepsBefore, installedStep]

/- Helper: when a trace ends in a step occurring nowhere earlier, that step is
attempted under a fault oracle exactly when every earlier step succeeds. -/
theorem attempted_append_last (pre : List Step) (post : Step) (ok : Step → Bool)
    (h : post ∉ pre) :
    (post ∈ attempted (pre ++ [post]) ok ↔ ∀ s ∈ pre, ok s = true) := by
  induction pre with
  | nil =>
    constructor
    · intro _ s hs
      exact absurd hs (List.not_mem_nil s)
    · intro _
      cases hok : ok post <;> simp [attempted, hok]
  | cons a rest ih =>
    have hpa : post ≠ a := fun he => h (he ▸ List.mem_cons_self a rest)
    have hpr : post ∉ rest := fun hm => h (List.mem_cons_of_mem a hm)
    rw [List.cons_append, show attempted (a :: (rest ++ [post])) ok
        = if ok a then a :: attempted (rest ++ [post]) ok else [a] from rfl]
    cases hok : ok a with
    | true =>
      rw [if_pos rfl]
      constructor
      · intro hmem s hs
        rcases List.mem_cons.mp hs with heq | hs'
        · exact heq ▸ hok
        · rcases List.mem_cons.mp hmem with he | hin
          · exact absurd he hpa
          · exact ((ih hpr).mp hin) s hs'
      · intro hall
        exact List.mem_cons_of_mem a
          ((ih hpr).mpr (fun s hs => hall s (List.mem_cons_of_mem a hs)))
    | false =>
      rw [if_neg (by simp)]
      constructor
      · intro hmem
        exact absurd (List.mem_singleton.mp hmem) hpa
      · intro hall
        exact absurd (hall a (List.mem_cons_self a rest)) (by simp [hok])

/-- Claim C9: the installed notification — a POST to /app/installed/ with body
exactly the JSON array holding the single object with the app UUID — is the
last effect of the orchestrator, occurs exactly once in it, and under any
fault oracle it is attempted if and only if every prior step completed without
raising (so on any unhandled fault in an earlier step it is never sent). -/
theorem main_installed_once_and_last (uuid osuser appname today : String) (m : Nat)
    (aE sE pdE pE : Bool) (ok : Step → Bool) :
    mainSteps uuid osuser appname today m aE sE pdE pE
        = mainStepsBefore uuid osuser appname today m aE sE pdE pE ++ [installedStep uuid]
    ∧ (mainSteps uuid osuser appname today m aE sE pdE pE).count (installedStep uuid) = 1
    ∧ (installedStep uuid ∈ attempted (mainSteps uuid osuser appname today m aE sE pdE pE) ok
        ↔ ∀ s ∈ mainStepsBefore uuid osuser appname today m aE sE pdE pE, ok s = true) := by
  have hnot := installed_not_in_before uuid osuser appname today m aE sE pdE pE
  refine ⟨rfl, ?_, attempted_append_last _ _ ok hnot⟩
  rw [mainSteps, List.count_append]
  rw [List.count_eq_zero_of_not_mem hnot]
  simp

/-- Witness for C9 at concrete arguments: the notification counts once and is
attempted under the all-true oracle. -/
theorem main_installed_once_and_last_witness :
    (mainSteps "uuid1" "u1" "app1" "2026-01-02" 3 false false false false).count
        (installedStep "uuid1") = 1
    ∧ (installedStep "uuid1"
        ∈ attempted (mainSteps "uuid1" "u1" "app1" "2026-01-02" 3 false false false false)
            (fun _ => true)
        ↔ ∀ s ∈ mainStepsBefore "uuid1" "u1" "app1" "2026-01-02" 3 false false false false,
            (fun _ => true) s = true) :=
  ⟨(main_installed_once_and_last "uuid1" "u1" "app1" "2026-01-02" 3 false false false false
      (fun _ => true)).2.1,
   (main_installed_once_and_last "uuid1" "u1" "app1" "2026-01-02" 3 false false false false
      (fun _ => true)).2.2⟩
